import Mathlib

/-
Shallow embedding of the distance-sensor position-reset core
(src/distance_reset.cpp) and verification of its specification.

Conventions of the embedding:
- C++ `double` values are modelled as real numbers (ℝ); the trigonometric
  functions of <cmath> are modelled by Mathlib's exact counterparts.
- `pros::Distance::get()` returns an integer millimeter value, modelled ℤ;
  the failure sentinel PROS_ERR is the concrete value 2147483647.
- The C++ cast `(int)x` of a double truncates toward zero: `truncR`.
- The C++ `%` on int is truncated remainder: `Int.tmod`.
- C `fmod` and `round` are modelled by `fmodR` and `roundR` below.
- `chassis.getPose()` / `chassis.setPose(...)` are modelled by passing the
  prior `Pose` in and returning the written pose: a reset function returns
  `Except (List ℝ) Pose`, where `.ok p` means `setPose` was called with
  exactly `p`, and `.error vs` means the function returned early without
  touching the pose, printing a diagnostic containing the values `vs`.
- `driveUntilDistance` returns the list of chassis commands it issued
  together with the final loop state (elapsed time, iteration count,
  whether it broke early on the stop condition).
-/

namespace MainDrive

/-- A planar pose (x, y, heading in degrees), as held by LemLib odometry. -/
structure Pose where
  x : ℝ
  y : ℝ
  theta : ℝ

/-- The four axis-aligned field walls. -/
inductive Wall where
  | top
  | right
  | bottom
  | left
deriving DecidableEq

/-- C++ `(int)x` conversion of a double: truncation toward zero. -/
noncomputable def truncR (x : ℝ) : ℤ :=
  if 0 ≤ x then ⌊x⌋ else -⌊-x⌋

/-- C `fmod(x, y)`: remainder with the sign of `x`, `x - trunc(x/y) * y`. -/
noncomputable def fmodR (x y : ℝ) : ℝ :=
  x - (truncR (x / y) : ℝ) * y

/-- C `round(x)`: rounding half away from zero. -/
noncomputable def roundR (x : ℝ) : ℝ :=
  if 0 ≤ x then ((⌊x + 1 / 2⌋ : ℤ) : ℝ) else -((⌊-x + 1 / 2⌋ : ℤ) : ℝ)

/-- C `atan2(y, x)`. Only the `0 < x` branch is exercised by the proofs,
but the full piecewise definition is given for fidelity. -/
noncomputable def atan2 (y x : ℝ) : ℝ :=
  if 0 < x then Real.arctan (y / x)
  else if x < 0 then
    (if 0 ≤ y then Real.arctan (y / x) + Real.pi else Real.arctan (y / x) - Real.pi)
  else
    (if 0 < y then Real.pi / 2 else if y < 0 then -(Real.pi / 2) else 0)

/-- Millimeters-to-inches conversion applied to every raw sensor value:
`sensor.get() / 25.4` (src/distance_reset.cpp:50). -/
noncomputable def mmToIn (mm : ℤ) : ℝ :=
  (mm : ℝ) / 25.4

/-- The heading normalization `((int)h % 360 + 360) % 360` applied to the
already-truncated integer part (src/distance_reset.cpp:73,147,196). -/
def normalizeHeadingInt (n : ℤ) : ℤ :=
  ((n.tmod 360) + 360).tmod 360

/-- Normalized integer heading computed from a real effective heading,
exactly as `int headingDeg = ((int)h % 360 + 360) % 360;`. -/
noncomputable def normHeadingR (h : ℝ) : ℤ :=
  normalizeHeadingInt (truncR h)

/-- The wall-classification if/else ladder shared verbatim by all three
reset operations (src/distance_reset.cpp:79-102, 161-164, 209-212),
acting on the normalized integer heading. -/
def classifyWall (n : ℤ) : Wall :=
  if 315 ≤ n ∨ n ≤ 45 then Wall.top
  else if 45 < n ∧ n ≤ 135 then Wall.right
  else if 135 < n ∧ n ≤ 225 then Wall.bottom
  else Wall.left

/-- Wall classification of a real effective heading: truncate to int,
normalize to [0, 360), then run the ladder. -/
noncomputable def classifyRealHeading (h : ℝ) : Wall :=
  classifyWall (normHeadingR h)

/-- `resettingX` per classified wall (branch bodies of the ladder). -/
def wallResettingX : Wall → Bool
  | Wall.top => false
  | Wall.right => true
  | Wall.bottom => false
  | Wall.left => true

/-- `wallSign` per classified wall (branch bodies of the ladder). -/
def wallSign : Wall → ℝ
  | Wall.top => 1
  | Wall.right => 1
  | Wall.bottom => -1
  | Wall.left => -1

/-- `expected_perpendicular_heading` per classified wall, as assigned in
the dual-sensor reset's ladder (src/distance_reset.cpp:83,89,95,101). -/
def expectedPerpendicularHeading : Wall → ℝ
  | Wall.top => 180
  | Wall.right => 270
  | Wall.bottom => 0
  | Wall.left => 90

/-- The world heading-direction each wall is associated with by the
classification ranges: the center of the wall's heading range
(TOP for headings near 0, RIGHT near 90, BOTTOM near 180, LEFT near 270). -/
def wallHeadingDirection : Wall → ℤ
  | Wall.top => 0
  | Wall.right => 90
  | Wall.bottom => 180
  | Wall.left => 270

/-- `double angle_to_wall_rad = atan2(d_right - d_left, sensor_spacing);`
(src/distance_reset.cpp:61). -/
noncomputable def backAngleToWallRad (dLeft dRight sensor_spacing : ℝ) : ℝ :=
  atan2 (dRight - dLeft) sensor_spacing

/-- `resetPositionAndHeadingBack` (src/distance_reset.cpp:45-122), with the
two raw sensor values passed in as the millimeter integers returned by
`back_left.get()` and `back_right.get()`, and the prior chassis pose passed
explicitly. `.error [d_left, d_right]` models the early return that prints
both converted readings; `.ok p` models `chassis.setPose(p)`. -/
noncomputable def resetPositionAndHeadingBack (mmL mmR : ℤ)
    (sensor_spacing left_offset right_offset field_half : ℝ)
    (pose : Pose) : Except (List ℝ) Pose :=
  let d_left := mmToIn mmL
  let d_right := mmToIn mmR
  if d_left < 0 ∨ d_left > 200 ∨ d_right < 0 ∨ d_right > 200 then
    Except.error [d_left, d_right]
  else
    let angle_to_wall_rad := backAngleToWallRad d_left d_right sensor_spacing
    let angle_to_wall_deg := angle_to_wall_rad * 180 / Real.pi
    let avg_offset := (left_offset + right_offset) / 2
    let avg_reading := (d_left + d_right) / 2
    let corrected_distance := avg_reading * Real.cos angle_to_wall_rad + avg_offset
    let headingDeg := normHeadingR (pose.theta + 180)
    let wall := classifyWall headingDeg
    let actualPos := wallSign wall * (field_half - corrected_distance)
    let corrected_heading :=
      fmodR (expectedPerpendicularHeading wall - angle_to_wall_deg + 360) 360
    let new_x := if wallResettingX wall then actualPos else pose.x
    let new_y := if wallResettingX wall then pose.y else actualPos
    Except.ok ⟨new_x, new_y, corrected_heading⟩

/-- `double sensor_heading_deg = pose.theta + 270.0;` — effective heading
of the left-facing sensor (src/distance_reset.cpp:146). -/
def leftSensorHeadingDeg (theta : ℝ) : ℝ :=
  theta + 270

/-- `double sensor_heading_deg = pose.theta + 90.0;` — effective heading
of the right-facing sensor (src/distance_reset.cpp:195). -/
def rightSensorHeadingDeg (theta : ℝ) : ℝ :=
  theta + 90

/-- The single-sensor angle-off-perpendicular computation
(src/distance_reset.cpp:150-151): the effective heading minus the nearest
multiple of 90 obtained with C `round`. -/
noncomputable def angleOffPerpendicularDeg (sensor_heading_deg : ℝ) : ℝ :=
  sensor_heading_deg - roundR (sensor_heading_deg / 90) * 90

/-- The single-sensor corrected distance
`sensorReading * cos(angle_off_rad) + sensor_offset`
(src/distance_reset.cpp:152-155). -/
noncomputable def singleCorrectedDistance
    (sensorReading sensor_offset sensor_heading_deg : ℝ) : ℝ :=
  sensorReading * Real.cos (angleOffPerpendicularDeg sensor_heading_deg * Real.pi / 180)
    + sensor_offset

/-- `resetPositionLeft` (src/distance_reset.cpp:133-171). -/
noncomputable def resetPositionLeft (mm : ℤ) (sensor_offset field_half : ℝ)
    (pose : Pose) : Except (List ℝ) Pose :=
  let sensorReading := mmToIn mm
  if sensorReading < 0 ∨ sensorReading > 200 then
    Except.error [sensorReading]
  else
    let sensor_heading_deg := leftSensorHeadingDeg pose.theta
    let headingDeg := normHeadingR sensor_heading_deg
    let corrected_distance := singleCorrectedDistance sensorReading sensor_offset sensor_heading_deg
    let wall := classifyWall headingDeg
    let actualPos := wallSign wall * (field_half - corrected_distance)
    let new_x := if wallResettingX wall then actualPos else pose.x
    let new_y := if wallResettingX wall then pose.y else actualPos
    Except.ok ⟨new_x, new_y, pose.theta⟩

/-- `resetPositionRight` (src/distance_reset.cpp:182-219). -/
noncomputable def resetPositionRight (mm : ℤ) (sensor_offset field_half : ℝ)
    (pose : Pose) : Except (List ℝ) Pose :=
  let sensorReading := mmToIn mm
  if sensorReading < 0 ∨ sensorReading > 200 then
    Except.error [sensorReading]
  else
    let sensor_heading_deg := rightSensorHeadingDeg pose.theta
    let headingDeg := normHeadingR sensor_heading_deg
    let corrected_distance := singleCorrectedDistance sensorReading sensor_offset sensor_heading_deg
    let wall := classifyWall headingDeg
    let actualPos := wallSign wall * (field_half - corrected_distance)
    let new_x := if wallResettingX wall then actualPos else pose.x
    let new_y := if wallResettingX wall then pose.y else actualPos
    Except.ok ⟨new_x, new_y, pose.theta⟩

/-- The PROS "no reading" sentinel (INT32_MAX). -/
def PROS_ERR : ℤ := 2147483647

/-- The stop condition checked each polling iteration of
`driveUntilDistance` (src/distance_reset.cpp:246-250): the sensor must not
report the error sentinel, and the converted reading must be strictly
positive and at or below the threshold. Readings are ℚ here because no
transcendental function is involved, keeping the loop fully computable. -/
def stopCond (mm : ℤ) (threshold_in : ℚ) : Prop :=
  mm ≠ PROS_ERR ∧ 0 < (mm : ℚ) / 25.4 ∧ (mm : ℚ) / 25.4 ≤ threshold_in

instance (mm : ℤ) (threshold_in : ℚ) : Decidable (stopCond mm threshold_in) := by
  unfold stopCond
  infer_instance

/-- The polling loop of `driveUntilDistance` (src/distance_reset.cpp:244-255).
`sensor i` is the millimeter value `sensor.get()` returns during iteration
`i`. Returns (final elapsed ms, number of iterations run, whether the loop
exited via `break` on the stop condition). -/
def driveLoop (sensor : ℕ → ℤ) (threshold_in : ℚ) (timeout_ms : ℤ)
    (elapsed : ℤ) (i : ℕ) : ℤ × ℕ × Bool :=
  if elapsed < timeout_ms then
    if stopCond (sensor i) threshold_in then
      (elapsed, i, true)
    else
      driveLoop sensor threshold_in timeout_ms (elapsed + 10) (i + 1)
  else
    (elapsed, i, false)
termination_by (timeout_ms - elapsed).toNat
decreasing_by omega

/-- A chassis command issued through the external motion/odometry
collaborator. `setPose` is included so that the interpreter below can
express pose mutation, even though `driveUntilDistance` never issues it. -/
inductive Action where
  | tank (l r : ℤ)
  | setBrakeMode (hold : Bool)
  | setPose (x y theta : ℝ)

/-- Effect of one chassis command on the odometry pose estimate. -/
def applyAction (p : Pose) : Action → Pose
  | Action.setPose x y theta => ⟨x, y, theta⟩
  | Action.tank _ _ => p
  | Action.setBrakeMode _ => p

/-- Effect of a command sequence on the odometry pose estimate. -/
def applyActions (as : List Action) (p : Pose) : Pose :=
  as.foldl applyAction p

/-- True for the commands `driveUntilDistance` is allowed to issue:
drive (`tank`) and brake (`setBrakeMode`) commands only. -/
def isDriveOrBrake : Action → Bool
  | Action.tank _ _ => true
  | Action.setBrakeMode _ => true
  | Action.setPose _ _ _ => false

/-- `driveUntilDistance` (src/distance_reset.cpp:236-260): issues the
initial tank command, runs the polling loop, then issues the brake-hold
and zero-output commands. Returns the issued command list in order and
the loop result. -/
def driveUntilDistance (sensor : ℕ → ℤ) (threshold_in : ℚ)
    (speed : ℤ) (forwards : Bool) (timeout_ms : ℤ) :
    List Action × ℤ × ℕ × Bool :=
  let direction : ℤ := if forwards then 1 else -1
  let result := driveLoop sensor threshold_in timeout_ms 0 0
  ([Action.tank (direction * speed) (direction * speed),
    Action.setBrakeMode true,
    Action.tank 0 0], result)

/-- Integer ceiling of `t / 10`, the claimed iteration bound
`ceil(timeout_ms / 10)`; `(t + 9) / 10` with Euclidean division equals the
mathematical ceiling (proved in `ceilDiv10_eq_ceil` below). -/
def ceilDiv10 (t : ℤ) : ℤ :=
  (t + 9) / 10

end MainDrive

namespace MainDrive

/-! ## Helper lemmas -/

theorem tmod_360_cases (a : ℤ) :
    a.tmod 360 = a % 360 ∨ a.tmod 360 = a % 360 - 360 := by
  rcases le_or_lt 0 a with h | h
  · left
    exact Int.tmod_eq_emod h (by norm_num)
  · have h1 : a.tmod 360 = -((-a).tmod 360) := by
      simp [Int.tmod_def, Int.neg_tdiv, Int.mul_neg, Int.sub_eq_add_neg]
      ring
    have h2 : (-a).tmod 360 = (-a) % 360 := Int.tmod_eq_emod (by omega) (by norm_num)
    omega

theorem normalizeHeadingInt_eq_emod (a : ℤ) : normalizeHeadingInt a = a % 360 := by
  unfold normalizeHeadingInt
  rcases tmod_360_cases a with h | h
  · have h2 : (a.tmod 360 + 360).tmod 360 = (a.tmod 360 + 360) % 360 :=
      Int.tmod_eq_emod (by omega) (by norm_num)
    omega
  · have h2 : (a.tmod 360 + 360).tmod 360 = (a.tmod 360 + 360) % 360 :=
      Int.tmod_eq_emod (by omega) (by norm_num)
    omega

theorem normHeadingR_eq_emod (h : ℝ) : normHeadingR h = (truncR h) % 360 := by
  unfold normHeadingR
  exact normalizeHeadingInt_eq_emod _

theorem normHeadingR_bounds (h : ℝ) : 0 ≤ normHeadingR h ∧ normHeadingR h < 360 := by
  rw [normHeadingR_eq_emod]
  omega

/-! ## C1: wall classification -/

/-- C1 (counterexample). The claim asserts that any effective heading
strictly above 45 classifies RIGHT; but the code truncates the heading to
an integer first, so the real effective heading 45.5 — which lies in the
claimed RIGHT range (45, 135] — classifies TOP. -/
theorem C1_ctex :
    classifyRealHeading (45.5 : ℝ) = Wall.top ∧
    (45 : ℝ) < 45.5 ∧ (45.5 : ℝ) ≤ 135 ∧ Wall.top ≠ Wall.right := by
  have ht : truncR (45.5 : ℝ) = 45 := by
    rw [truncR, if_pos (by norm_num)]
    norm_num
  refine ⟨?_, by norm_num, by norm_num, by decide⟩
  rw [classifyRealHeading, normHeadingR, ht]
  decide

/-- C1 (amended). The wall classification used by all three reset
operations first truncates the real effective heading toward zero to an
integer and normalizes it to [0, 360); on the resulting integer heading it
assigns exactly one wall according to the partition
[315, 360) ∪ [0, 45] → TOP, (45, 135] → RIGHT, (135, 225] → BOTTOM,
(225, 315) → LEFT, with seams closed toward the lower wall at integer
granularity. A real heading 45 + ε with 0 < ε < 1 still classifies TOP
because of the truncation. -/
theorem C1_thm (h : ℝ) :
    (0 ≤ normHeadingR h ∧ normHeadingR h < 360) ∧
    (classifyRealHeading h = Wall.top ↔
      (315 ≤ normHeadingR h ∨ normHeadingR h ≤ 45)) ∧
    (classifyRealHeading h = Wall.right ↔
      (45 < normHeadingR h ∧ normHeadingR h ≤ 135)) ∧
    (classifyRealHeading h = Wall.bottom ↔
      (135 < normHeadingR h ∧ normHeadingR h ≤ 225)) ∧
    (classifyRealHeading h = Wall.left ↔
      (225 < normHeadingR h ∧ normHeadingR h < 315)) := by
  obtain ⟨h0, h1⟩ := normHeadingR_bounds h
  refine ⟨⟨h0, h1⟩, ?_, ?_, ?_, ?_⟩ <;>
    · rw [classifyRealHeading, classifyWall]
      split_ifs <;> simp_all <;> omega

/-! ## C9: expected perpendicular heading per wall -/

/-- C9. In `resetPositionAndHeadingBack` the expected perpendicular
heading fed into the heading correction is determined by the classified
wall as TOP → 180, RIGHT → 270, BOTTOM → 0, LEFT → 90, which for every
classified wall equals the wall's associated heading direction plus 180
modulo 360. -/
theorem C9_thm :
    (∀ n : ℤ, expectedPerpendicularHeading (classifyWall n)
      = (((wallHeadingDirection (classifyWall n) + 180) % 360 : ℤ) : ℝ)) ∧
    expectedPerpendicularHeading Wall.top = 180 ∧
    expectedPerpendicularHeading Wall.right = 270 ∧
    expectedPerpendicularHeading Wall.bottom = 0 ∧
    expectedPerpendicularHeading Wall.left = 90 := by
  refine ⟨fun n => ?_, rfl, rfl, rfl, rfl⟩
  cases classifyWall n <;>
    norm_num [expectedPerpendicularHeading, wallHeadingDirection]

end MainDrive

namespace MainDrive

/-! ## Evaluation helpers for concrete inputs -/

theorem truncR_intCast (k : ℤ) : truncR (k : ℝ) = k := by
  rw [truncR]
  split_ifs
  · exact Int.floor_intCast k
  · rw [← Int.cast_neg, Int.floor_intCast]
    omega

theorem normHeadingR_intCast (k : ℤ) : normHeadingR (k : ℝ) = normalizeHeadingInt k := by
  rw [normHeadingR, truncR_intCast]

theorem roundR_intCast (k : ℤ) : roundR (k : ℝ) = k := by
  rw [roundR]
  split_ifs
  · rw [Int.floor_int_add]
    push_cast
    norm_num
  · rw [show -(k : ℝ) = ((-k : ℤ) : ℝ) by push_cast; ring, Int.floor_int_add]
    push_cast
    norm_num

theorem angleOffPerpendicularDeg_mul90 (k : ℤ) :
    angleOffPerpendicularDeg ((k : ℝ) * 90) = 0 := by
  rw [angleOffPerpendicularDeg]
  have h : (k : ℝ) * 90 / 90 = (k : ℝ) := by norm_num
  rw [h, roundR_intCast]
  ring

theorem singleCorrectedDistance_perp (r off shd : ℝ)
    (h : angleOffPerpendicularDeg shd = 0) :
    singleCorrectedDistance r off shd = r + off := by
  rw [singleCorrectedDistance, h]
  simp

/-! ## C2: plausibility-window validation -/

/-- C2 (amended). For every reset operation, if any converted sensor
reading lies outside the closed window [0, 200] — in particular the values
-1 and 201 — the operation returns without calling `setPose` and emits a
diagnostic containing the rejected converted value(s). The boundary value
0, excluded by the claim's half-open window (0, 200], is in fact accepted
by the code as a valid reading (see the counterexample). -/
theorem C2_thm (mmL mmR mm : ℤ) (spacing loff roff off fh : ℝ) (pose : Pose) :
    ((mmToIn mmL < 0 ∨ mmToIn mmL > 200 ∨ mmToIn mmR < 0 ∨ mmToIn mmR > 200) →
      resetPositionAndHeadingBack mmL mmR spacing loff roff fh pose
        = Except.error [mmToIn mmL, mmToIn mmR]) ∧
    ((mmToIn mm < 0 ∨ mmToIn mm > 200) →
      resetPositionLeft mm off fh pose = Except.error [mmToIn mm]) ∧
    ((mmToIn mm < 0 ∨ mmToIn mm > 200) →
      resetPositionRight mm off fh pose = Except.error [mmToIn mm]) := by
  refine ⟨fun h => ?_, fun h => ?_, fun h => ?_⟩
  · rw [resetPositionAndHeadingBack, if_pos h]
  · rw [resetPositionLeft, if_pos h]
  · rw [resetPositionRight, if_pos h]

/-- C2 (witness): converted reading -10 (raw -254 mm) is rejected by all
three operations, with the diagnostic carrying the rejected value(s). -/
theorem C2_witness :
    (mmToIn (-254) < 0 ∨ mmToIn (-254) > 200) ∧
    resetPositionLeft (-254) 2 72 ⟨0, 0, 0⟩ = Except.error [mmToIn (-254)] ∧
    resetPositionRight (-254) 2 72 ⟨0, 0, 0⟩ = Except.error [mmToIn (-254)] ∧
    resetPositionAndHeadingBack (-254) 254 6 2 2 72 ⟨0, 0, 0⟩
      = Except.error [mmToIn (-254), mmToIn 254] := by
  have hv : mmToIn (-254 : ℤ) < 0 ∨ mmToIn (-254 : ℤ) > 200 := by
    left
    rw [mmToIn]
    norm_num
  have hb : mmToIn (-254 : ℤ) < 0 ∨ mmToIn (-254 : ℤ) > 200 ∨
      mmToIn (254 : ℤ) < 0 ∨ mmToIn (254 : ℤ) > 200 := by
    rcases hv with h | h
    · exact Or.inl h
    · exact Or.inr (Or.inl h)
  exact ⟨hv, (C2_thm (-254) 254 (-254) 6 2 2 2 72 ⟨0, 0, 0⟩).2.1 hv,
    (C2_thm (-254) 254 (-254) 6 2 2 2 72 ⟨0, 0, 0⟩).2.2 hv,
    (C2_thm (-254) 254 (-254) 6 2 2 2 72 ⟨0, 0, 0⟩).1 hb⟩

/-- C2 (counterexample). A converted reading of exactly 0 lies outside the
claimed plausibility window (0, 200], yet `resetPositionLeft` accepts it
and calls `setPose` (writing x = -(72 - 2) = -70 for a robot at heading 0,
whose left sensor faces the left wall). -/
theorem C2_ctex :
    resetPositionLeft 0 2 72 ⟨0, 0, 0⟩ = Except.ok ⟨-70, 0, 0⟩ ∧
    ¬ (0 < mmToIn 0) := by
  have h0 : mmToIn (0 : ℤ) = 0 := by
    rw [mmToIn]
    norm_num
  constructor
  · rw [resetPositionLeft, if_neg (by rw [h0]; norm_num)]
    have hshd : leftSensorHeadingDeg (Pose.theta ⟨0, 0, 0⟩) = ((3 : ℤ) : ℝ) * 90 := by
      rw [leftSensorHeadingDeg]
      norm_num
    have hnh : normHeadingR (leftSensorHeadingDeg (Pose.theta ⟨0, 0, 0⟩)) = 270 := by
      rw [hshd, show ((3 : ℤ) : ℝ) * 90 = ((270 : ℤ) : ℝ) by norm_num, normHeadingR_intCast]
      decide
    have hcd : singleCorrectedDistance (mmToIn 0) 2
        (leftSensorHeadingDeg (Pose.theta ⟨0, 0, 0⟩)) = 2 := by
      rw [singleCorrectedDistance_perp _ _ _ (hshd ▸ angleOffPerpendicularDeg_mul90 3), h0]
      ring
    have hw : classifyWall 270 = Wall.left := by decide
    simp only [hnh, hcd, hw, wallResettingX, wallSign, if_true]
    norm_num [Pose.mk.injEq]
  · rw [h0]
    norm_num

end MainDrive

namespace MainDrive

/-! ## C4: single-sensor resets only overwrite the classified axis -/

/-- C4. For every valid (in-window) reading, `resetPositionLeft` and
`resetPositionRight` call `setPose` with the heading read at the start of
the call and with the coordinate of the axis orthogonal to the classified
one equal to the value read at the start of the call: only the classified
axis is overwritten. -/
theorem C4_thm (mm : ℤ) (off fh : ℝ) (pose : Pose)
    (h1 : 0 < mmToIn mm) (h2 : mmToIn mm ≤ 200) :
    (∃ p, resetPositionLeft mm off fh pose = Except.ok p ∧
      p.theta = pose.theta ∧
      (if wallResettingX (classifyRealHeading (leftSensorHeadingDeg pose.theta)) then
        p.y = pose.y else p.x = pose.x)) ∧
    (∃ q, resetPositionRight mm off fh pose = Except.ok q ∧
      q.theta = pose.theta ∧
      (if wallResettingX (classifyRealHeading (rightSensorHeadingDeg pose.theta)) then
        q.y = pose.y else q.x = pose.x)) := by
  have hcond : ¬ (mmToIn mm < 0 ∨ mmToIn mm > 200) := by
    push_neg
    constructor <;> linarith
  constructor
  · rw [resetPositionLeft, if_neg hcond]
    refine ⟨_, rfl, rfl, ?_⟩
    cases hW : wallResettingX (classifyWall (normHeadingR (leftSensorHeadingDeg pose.theta))) <;>
      simp [classifyRealHeading, hW]
  · rw [resetPositionRight, if_neg hcond]
    refine ⟨_, rfl, rfl, ?_⟩
    cases hW : wallResettingX (classifyWall (normHeadingR (rightSensorHeadingDeg pose.theta))) <;>
      simp [classifyRealHeading, hW]

/-- C4 (witness): a valid converted reading of 10 inches (254 mm), robot
at pose (5, 6, 0). -/
theorem C4_witness :
    (0 < mmToIn 254 ∧ mmToIn 254 ≤ 200) ∧
    ((∃ p, resetPositionLeft 254 2 72 ⟨5, 6, 0⟩ = Except.ok p ∧
      p.theta = Pose.theta ⟨5, 6, 0⟩ ∧
      (if wallResettingX (classifyRealHeading (leftSensorHeadingDeg (Pose.theta ⟨5, 6, 0⟩))) then
        p.y = Pose.y ⟨5, 6, 0⟩ else p.x = Pose.x ⟨5, 6, 0⟩)) ∧
     (∃ q, resetPositionRight 254 2 72 ⟨5, 6, 0⟩ = Except.ok q ∧
      q.theta = Pose.theta ⟨5, 6, 0⟩ ∧
      (if wallResettingX (classifyRealHeading (rightSensorHeadingDeg (Pose.theta ⟨5, 6, 0⟩))) then
        q.y = Pose.y ⟨5, 6, 0⟩ else q.x = Pose.x ⟨5, 6, 0⟩))) := by
  have hv1 : 0 < mmToIn 254 := by
    rw [mmToIn]
    norm_num
  have hv2 : mmToIn 254 ≤ 200 := by
    rw [mmToIn]
    norm_num
  exact ⟨⟨hv1, hv2⟩, C4_thm 254 2 72 ⟨5, 6, 0⟩ hv1 hv2⟩

end MainDrive

namespace MainDrive

/-! ## Dual-sensor helpers -/

theorem atan2_zero_of_pos (x : ℝ) (h : 0 < x) : atan2 0 x = 0 := by
  rw [atan2, if_pos h, zero_div, Real.arctan_zero]

theorem fmodR_eph (w : Wall) :
    fmodR (expectedPerpendicularHeading w + 360) 360 = expectedPerpendicularHeading w := by
  cases w <;>
    · rw [expectedPerpendicularHeading, fmodR, truncR, if_pos (by norm_num)]
      norm_num

theorem fmodR_eph_sub_zero_angle (w : Wall) :
    fmodR (expectedPerpendicularHeading w - 0 * 180 / Real.pi + 360) 360
      = expectedPerpendicularHeading w := by
  rw [show (0 : ℝ) * 180 / Real.pi = 0 by simp, sub_zero]
  exact fmodR_eph w

/-- Evaluation of concrete scenario A (heading 0, both back sensors read
254 mm = 10 in, spacing 6, offsets 2, field_half 72): the code classifies
BOTTOM and writes y = -60, heading = 0, x unchanged. -/
theorem resetBack_scenarioA (x0 y0 : ℝ) :
    resetPositionAndHeadingBack 254 254 6 2 2 72 ⟨x0, y0, 0⟩
      = Except.ok ⟨x0, -60, 0⟩ := by
  have hd : mmToIn (254 : ℤ) = 10 := by
    rw [mmToIn]
    norm_num
  have hang : backAngleToWallRad (mmToIn 254) (mmToIn 254) 6 = 0 := by
    rw [backAngleToWallRad, sub_self]
    exact atan2_zero_of_pos 6 (by norm_num)
  have hnh : normHeadingR (Pose.theta ⟨x0, y0, 0⟩ + 180) = 180 := by
    show normHeadingR ((0 : ℝ) + 180) = 180
    rw [show (0 : ℝ) + 180 = ((180 : ℤ) : ℝ) by norm_num, normHeadingR_intCast]
    decide
  have hw : classifyWall 180 = Wall.bottom := by decide
  have hfm : fmodR 360 360 = 0 := by
    rw [fmodR, truncR, if_pos (by norm_num)]
    norm_num
  rw [resetPositionAndHeadingBack, if_neg (by rw [hd]; norm_num)]
  simp only [hang, hnh, hw, Real.cos_zero,
    wallResettingX, wallSign, expectedPerpendicularHeading, Bool.false_eq_true, if_false]
  rw [hd]
  norm_num [Pose.mk.injEq, hfm]

/-! ## C3: concrete scenario A -/

/-- C3 (counterexample). In scenario A (prior heading 0, both back
sensors at 10 in, spacing 6, offsets 2, field_half 72) the code writes
y = -60 and heading = 0 — not y = +60 and heading = 180 as claimed: with
heading 0 the back of the robot faces the bottom wall (negative side). -/
theorem C3_ctex :
    resetPositionAndHeadingBack 254 254 6 2 2 72 ⟨0, 0, 0⟩ = Except.ok ⟨0, -60, 0⟩ ∧
    (-60 : ℝ) ≠ 60 ∧ (0 : ℝ) ≠ 180 := by
  refine ⟨resetBack_scenarioA 0 0, by norm_num, by norm_num⟩

/-- C3 (amended). With prior heading 0, back-facing dual sensors both
reading 10.0 in (254 mm), sensor spacing 6.0, both mounting offsets 2.0,
and field_half 72.0, `resetPositionAndHeadingBack` writes corrected
Y = -(72 - 12) = -60.0 and corrected heading = 0.0 (X unchanged). -/
theorem C3_thm (x0 y0 : ℝ) :
    resetPositionAndHeadingBack 254 254 6 2 2 72 ⟨x0, y0, 0⟩
      = Except.ok ⟨x0, -60, 0⟩ :=
  resetBack_scenarioA x0 y0

end MainDrive

namespace MainDrive

/-! ## C5: dual-sensor symmetry -/

/-- C5. For equal valid readings and positive sensor spacing,
`resetPositionAndHeadingBack` computes `angle_to_wall` exactly 0, and the
heading it writes equals exactly the classified wall's expected
perpendicular heading, one of 0, 90, 180, 270. -/
theorem C5_thm (mmL mmR : ℤ) (spacing loff roff fh : ℝ) (pose : Pose)
    (heq : mmL = mmR) (hsp : 0 < spacing)
    (h1 : 0 < mmToIn mmL) (h2 : mmToIn mmL ≤ 200) :
    backAngleToWallRad (mmToIn mmL) (mmToIn mmR) spacing = 0 ∧
    ∃ p, resetPositionAndHeadingBack mmL mmR spacing loff roff fh pose = Except.ok p ∧
      p.theta = expectedPerpendicularHeading (classifyRealHeading (pose.theta + 180)) ∧
      (p.theta = 0 ∨ p.theta = 90 ∨ p.theta = 180 ∨ p.theta = 270) := by
  subst heq
  have hang : backAngleToWallRad (mmToIn mmL) (mmToIn mmL) spacing = 0 := by
    rw [backAngleToWallRad, sub_self]
    exact atan2_zero_of_pos spacing hsp
  have hcond : ¬ (mmToIn mmL < 0 ∨ mmToIn mmL > 200 ∨ mmToIn mmL < 0 ∨ mmToIn mmL > 200) := by
    push_neg
    refine ⟨by linarith, by linarith, by linarith, by linarith⟩
  refine ⟨hang, ?_⟩
  rw [resetPositionAndHeadingBack, if_neg hcond]
  refine ⟨_, rfl, ?_, ?_⟩
  · simp only [hang, classifyRealHeading]
    exact fmodR_eph_sub_zero_angle _
  · simp only [hang, fmodR_eph_sub_zero_angle]
    cases classifyWall (normHeadingR (pose.theta + 180)) <;>
      simp [expectedPerpendicularHeading]

/-- C5 (witness): both back sensors read 254 mm (10 in), spacing 6,
offsets 2, field_half 72, prior pose (0, 0, 0). -/
theorem C5_witness :
    ((254 : ℤ) = 254 ∧ (0 : ℝ) < 6 ∧ 0 < mmToIn 254 ∧ mmToIn 254 ≤ 200) ∧
    (backAngleToWallRad (mmToIn 254) (mmToIn 254) 6 = 0 ∧
     ∃ p, resetPositionAndHeadingBack 254 254 6 2 2 72 ⟨0, 0, 0⟩ = Except.ok p ∧
       p.theta = expectedPerpendicularHeading (classifyRealHeading (Pose.theta ⟨0, 0, 0⟩ + 180)) ∧
       (p.theta = 0 ∨ p.theta = 90 ∨ p.theta = 180 ∨ p.theta = 270)) := by
  have h1 : 0 < mmToIn (254 : ℤ) := by
    rw [mmToIn]
    norm_num
  have h2 : mmToIn (254 : ℤ) ≤ 200 := by
    rw [mmToIn]
    norm_num
  exact ⟨⟨rfl, by norm_num, h1, h2⟩, C5_thm 254 254 6 2 2 72 ⟨0, 0, 0⟩ rfl (by norm_num) h1 h2⟩

/-! ## C8: left/right reset equivalence up to the facing offset -/

/-- C8. `resetPositionLeft` and `resetPositionRight` differ only in the
facing-offset constant (270 vs 90 degrees): for every reading, mounting
offset, field_half, and prior pose, the left reset at robot heading θ
computes the same effective heading, wall classification, axis, sign,
corrected distance, and written coordinates as the right reset at robot
heading θ + 180. -/
theorem C8_thm (mm : ℤ) (off fh x y theta : ℝ) :
    leftSensorHeadingDeg theta = rightSensorHeadingDeg (theta + 180) ∧
    classifyRealHeading (leftSensorHeadingDeg theta)
      = classifyRealHeading (rightSensorHeadingDeg (theta + 180)) ∧
    wallResettingX (classifyRealHeading (leftSensorHeadingDeg theta))
      = wallResettingX (classifyRealHeading (rightSensorHeadingDeg (theta + 180))) ∧
    wallSign (classifyRealHeading (leftSensorHeadingDeg theta))
      = wallSign (classifyRealHeading (rightSensorHeadingDeg (theta + 180))) ∧
    singleCorrectedDistance (mmToIn mm) off (leftSensorHeadingDeg theta)
      = singleCorrectedDistance (mmToIn mm) off (rightSensorHeadingDeg (theta + 180)) ∧
    (resetPositionLeft mm off fh ⟨x, y, theta⟩).map (fun p => (p.x, p.y))
      = (resetPositionRight mm off fh ⟨x, y, theta + 180⟩).map (fun p => (p.x, p.y)) := by
  have key : leftSensorHeadingDeg theta = rightSensorHeadingDeg (theta + 180) := by
    rw [leftSensorHeadingDeg, rightSensorHeadingDeg]
    ring
  refine ⟨key, by rw [key], by rw [key], by rw [key], by rw [key], ?_⟩
  rw [resetPositionLeft, resetPositionRight]
  by_cases hc : mmToIn mm < 0 ∨ mmToIn mm > 200
  · rw [if_pos hc, if_pos hc]
  · rw [if_neg hc, if_neg hc]
    simp [key, Except.map]

end MainDrive

namespace MainDrive

/-! ## Polling-loop lemmas -/

/-- When no reading ever satisfies the stop condition, the loop runs to
the timeout: starting from elapsed time `e` with `t - e > -10` it performs
exactly `(t - e + 9) / 10` more iterations (Euclidean division; zero when
`e` has already reached `t`) and exits with the corresponding elapsed
time, without breaking. -/
theorem driveLoop_noStop (sensor : ℕ → ℤ) (thr : ℚ) (t : ℤ)
    (hns : ∀ j, ¬ stopCond (sensor j) thr) :
    ∀ e i, -10 < t - e →
      driveLoop sensor thr t e i
        = (e + 10 * ((t - e + 9) / 10), i + ((t - e + 9) / 10).toNat, false) := by
  have H : ∀ n : ℕ, ∀ e i, (t - e).toNat = n → -10 < t - e →
      driveLoop sensor thr t e i
        = (e + 10 * ((t - e + 9) / 10), i + ((t - e + 9) / 10).toNat, false) := by
    intro n
    induction n using Nat.strong_induction_on with
    | _ n ih =>
      intro e i hn he
      rcases lt_or_le e t with hlt | hge
      · rw [driveLoop, if_pos hlt, if_neg (hns i)]
        rw [ih (t - (e + 10)).toNat (by omega) (e + 10) (i + 1) rfl (by omega)]
        simp only [Prod.mk.injEq]
        exact ⟨by omega, by omega, trivial⟩
      · rw [driveLoop, if_neg (by omega)]
        have hk : (t - e + 9) / 10 = 0 := by omega
        rw [hk]
        norm_num
  intro e i he
  exact H (t - e).toNat e i rfl he

/-- Whatever the sensor does, starting from elapsed `e` with `t - e > -10`
the loop performs at most `(t - e + 9) / 10` further iterations. -/
theorem driveLoop_iterations_le (sensor : ℕ → ℤ) (thr : ℚ) (t : ℤ) :
    ∀ e i, -10 < t - e →
      ((driveLoop sensor thr t e i).2.1 : ℤ) ≤ i + (t - e + 9) / 10 := by
  have H : ∀ n : ℕ, ∀ e i, (t - e).toNat = n → -10 < t - e →
      ((driveLoop sensor thr t e i).2.1 : ℤ) ≤ i + (t - e + 9) / 10 := by
    intro n
    induction n using Nat.strong_induction_on with
    | _ n ih =>
      intro e i hn he
      rcases lt_or_le e t with hlt | hge
      · rw [driveLoop, if_pos hlt]
        split_ifs with hstop
        · simp only []
          omega
        · have := ih (t - (e + 10)).toNat (by omega) (e + 10) (i + 1) rfl (by omega)
          omega
      · rw [driveLoop, if_neg (by omega)]
        simp only []
        omega
  intro e i he
  exact H (t - e).toNat e i rfl he

/-- If the loop broke early, the reading at the break iteration satisfied
the stop condition. -/
theorem driveLoop_break_stop (sensor : ℕ → ℤ) (thr : ℚ) (t : ℤ) :
    ∀ e i, (driveLoop sensor thr t e i).2.2 = true →
      stopCond (sensor ((driveLoop sensor thr t e i).2.1)) thr := by
  have H : ∀ n : ℕ, ∀ e i, (t - e).toNat = n →
      (driveLoop sensor thr t e i).2.2 = true →
      stopCond (sensor ((driveLoop sensor thr t e i).2.1)) thr := by
    intro n
    induction n using Nat.strong_induction_on with
    | _ n ih =>
      intro e i hn
      rcases lt_or_le e t with hlt | hge
      · rw [driveLoop, if_pos hlt]
        split_ifs with hstop
        · intro _
          simpa using hstop
        · exact ih (t - (e + 10)).toNat (by omega) (e + 10) (i + 1) rfl
      · rw [driveLoop, if_neg (by omega)]
        simp
  intro e i
  exact H (t - e).toNat e i rfl

end MainDrive

namespace MainDrive

theorem ceilDiv10_eq_ceil (t : ℤ) : ceilDiv10 t = ⌈(t : ℚ) / 10⌉ := by
  rw [ceilDiv10]
  symm
  rw [Int.ceil_eq_iff]
  have h1 : 10 * ((t + 9) / 10) ≤ t + 9 := by omega
  have h2 : t ≤ 10 * ((t + 9) / 10) := by omega
  have h1q : (10 : ℚ) * ((t + 9) / 10 : ℤ) ≤ t + 9 := by exact_mod_cast h1
  have h2q : (t : ℚ) ≤ 10 * ((t + 9) / 10 : ℤ) := by exact_mod_cast h2
  constructor
  · rw [lt_div_iff₀ (by norm_num : (0 : ℚ) < 10)]
    linarith
  · rw [div_le_iff₀ (by norm_num : (0 : ℚ) < 10)]
    linarith

/-! ## C6: polling loop termination and timing -/

/-- C6 (amended). For every timeout_ms ≥ 0, the polling loop of
`driveUntilDistance` terminates (the loop function is total): it runs at
most ceil(timeout_ms / 10) iterations, and when no reading ever satisfies
the stop condition it exits with elapsed time at least timeout_ms and less
than one polling interval (10 ms) beyond it, after which the brake-hold
and zero-output commands are issued. (For negative timeouts the loop still
terminates immediately with zero iterations, but the claimed iteration
bound ceil(timeout_ms / 10) is negative and the claimed 10 ms proximity to
the timeout fails — see the counterexample.) -/
theorem C6_thm (sensor : ℕ → ℤ) (thr : ℚ) (speed : ℤ) (fwd : Bool) (t : ℤ)
    (ht : 0 ≤ t) :
    (((driveLoop sensor thr t 0 0).2.1 : ℤ) ≤ ceilDiv10 t) ∧
    ((∀ j, ¬ stopCond (sensor j) thr) →
      driveLoop sensor thr t 0 0 = (10 * ceilDiv10 t, (ceilDiv10 t).toNat, false) ∧
      t ≤ 10 * ceilDiv10 t ∧ 10 * ceilDiv10 t < t + 10) ∧
    ceilDiv10 t = ⌈(t : ℚ) / 10⌉ ∧
    (driveUntilDistance sensor thr speed fwd t).1
      = [Action.tank ((if fwd then 1 else -1) * speed) ((if fwd then 1 else -1) * speed),
         Action.setBrakeMode true, Action.tank 0 0] := by
  refine ⟨?_, fun hns => ?_, ceilDiv10_eq_ceil t, rfl⟩
  · have hle := driveLoop_iterations_le sensor thr t 0 0 (by omega)
    rw [ceilDiv10]
    omega
  · have h := driveLoop_noStop sensor thr t hns 0 0 (by omega)
    rw [ceilDiv10]
    refine ⟨?_, by omega, by omega⟩
    rw [h]
    simp only [Prod.mk.injEq]
    exact ⟨by omega, by omega, trivial⟩

/-- C6 (witness): timeout 25 ms, sensor permanently returning the
no-reading sentinel: the loop runs 3 = ceil(25/10) iterations and exits at
30 ms elapsed. -/
theorem C6_witness :
    ((0 : ℤ) ≤ 25 ∧ ∀ j : ℕ, ¬ stopCond ((fun _ => PROS_ERR) j) 3) ∧
    (((driveLoop (fun _ => PROS_ERR) 3 25 0 0).2.1 : ℤ) ≤ ceilDiv10 25 ∧
     driveLoop (fun _ => PROS_ERR) 3 25 0 0 = (10 * ceilDiv10 25, (ceilDiv10 25).toNat, false) ∧
     (25 : ℤ) ≤ 10 * ceilDiv10 25 ∧ 10 * ceilDiv10 25 < 25 + 10) := by
  have hns : ∀ j : ℕ, ¬ stopCond ((fun _ => PROS_ERR) j) 3 := by
    intro j
    rw [stopCond]
    simp
  have h := C6_thm (fun _ => PROS_ERR) 3 60 true 25 (by norm_num)
  exact ⟨⟨by norm_num, hns⟩, h.1, h.2.1 hns⟩

/-- C6 (counterexample). At timeout_ms = -20 the loop exits immediately
with 0 iterations and elapsed time 0; but the claimed bound
ceil(-20 / 10) = -2 does not admit 0 iterations, and the final elapsed
time is 20 ms away from the timeout, more than one polling interval. -/
theorem C6_ctex :
    driveLoop (fun _ => PROS_ERR) 3 (-20) 0 0 = (0, 0, false) ∧
    ¬ (((driveLoop (fun _ => PROS_ERR) 3 (-20) 0 0).2.1 : ℤ) ≤ ⌈((-20 : ℤ) : ℚ) / 10⌉) ∧
    ¬ ((driveLoop (fun _ => PROS_ERR) 3 (-20) 0 0).1 - (-20) ≤ 10) := by
  have h : driveLoop (fun _ => PROS_ERR) 3 (-20) 0 0 = (0, 0, false) := by
    rw [driveLoop, if_neg (by norm_num)]
  have hc : ⌈((-20 : ℤ) : ℚ) / 10⌉ = -2 := by
    rw [show ((-20 : ℤ) : ℚ) / 10 = ((-2 : ℤ) : ℚ) by norm_num, Int.ceil_intCast]
  refine ⟨h, ?_, ?_⟩
  · rw [h, hc]
    norm_num
  · rw [h]
    norm_num

/-! ## C7: stop condition during polling -/

/-- C7 (amended). The polling loop of `driveUntilDistance` breaks early
only when the reading at the break iteration satisfies the code's stop
condition: not the no-reading sentinel, converted value strictly positive
and at or below the threshold. The sentinel and nonpositive converted
values therefore never satisfy the stop condition; but no upper
plausibility bound is applied, so a converted value above the plausibility
window (0, 200] does stop the loop whenever the threshold admits it (see
the counterexample). -/
theorem C7_thm (sensor : ℕ → ℤ) (thr : ℚ) (t : ℤ) :
    (∀ e i, (driveLoop sensor thr t e i).2.2 = true →
      stopCond (sensor ((driveLoop sensor thr t e i).2.1)) thr) ∧
    (∀ mm : ℤ, (mm = PROS_ERR ∨ (mm : ℚ) / 25.4 ≤ 0) → ¬ stopCond mm thr) := by
  refine ⟨driveLoop_break_stop sensor thr t, ?_⟩
  intro mm hm hstop
  rw [stopCond] at hstop
  rcases hm with hm | hm
  · exact hstop.1 hm
  · linarith [hstop.2.1]

/-- C7 (witness): a constant reading of 76 mm (about 2.99 in) with
threshold 3 breaks the loop at iteration 0 and indeed satisfies the stop
condition; the sentinel never does. -/
theorem C7_witness :
    (driveLoop (fun _ => (76 : ℤ)) 3 3000 0 0).2.2 = true ∧
    stopCond ((fun _ => (76 : ℤ)) ((driveLoop (fun _ => (76 : ℤ)) 3 3000 0 0).2.1)) 3 ∧
    (PROS_ERR = PROS_ERR ∨ (PROS_ERR : ℚ) / 25.4 ≤ 0) ∧ ¬ stopCond PROS_ERR 3 := by
  have hstop76 : stopCond ((fun _ => (76 : ℤ)) 0) 3 := by
    rw [stopCond, PROS_ERR]
    norm_num
  have hb : (driveLoop (fun _ => (76 : ℤ)) 3 3000 0 0).2.2 = true := by
    rw [driveLoop, if_pos (by norm_num : (0 : ℤ) < 3000), if_pos hstop76]
  exact ⟨hb, (C7_thm (fun _ => 76) 3 3000).1 0 0 hb, Or.inl rfl,
    (C7_thm (fun _ => 76) 3 3000).2 PROS_ERR (Or.inl rfl)⟩

/-- C7 (counterexample). A converted reading of 230 in (5842 mm) lies
outside the plausibility window (0, 200], yet with threshold 250 it
satisfies the stop condition and breaks the loop at once: the loop never
checks the plausibility window. -/
theorem C7_ctex :
    ((5842 : ℤ) : ℚ) / 25.4 > 200 ∧
    driveLoop (fun _ => (5842 : ℤ)) 250 3000 0 0 = (0, 0, true) := by
  have hstop : stopCond ((fun _ => (5842 : ℤ)) 0) 250 := by
    rw [stopCond, PROS_ERR]
    norm_num
  refine ⟨by norm_num, ?_⟩
  rw [driveLoop, if_pos (by norm_num : (0 : ℤ) < 3000), if_pos hstop]

/-! ## C10: driveUntilDistance never touches the pose -/

/-- C10. `driveUntilDistance` issues only drive and brake commands (`tank`
and `setBrakeMode`), never a pose access, so the odometry pose estimate is
identical before and after the call, for every sensor behavior, threshold,
speed, direction, and timeout. -/
theorem C10_thm (sensor : ℕ → ℤ) (thr : ℚ) (speed : ℤ) (fwd : Bool) (t : ℤ)
    (p : Pose) :
    applyActions ((driveUntilDistance sensor thr speed fwd t).1) p = p ∧
    ∀ a ∈ (driveUntilDistance sensor thr speed fwd t).1, isDriveOrBrake a = true := by
  constructor
  · rfl
  · intro a ha
    rw [driveUntilDistance] at ha
    simp only [List.mem_cons, List.not_mem_nil, or_false] at ha
    rcases ha with h | h | h <;> subst h <;> rfl

/-- C10 (witness): at concrete inputs the pose (1, 2, 3) is unchanged and
the final zero-output command is a drive command. -/
theorem C10_witness :
    applyActions ((driveUntilDistance (fun _ => PROS_ERR) 3 60 true 3000).1) ⟨1, 2, 3⟩
      = (⟨1, 2, 3⟩ : Pose) ∧
    Action.tank 0 0 ∈ (driveUntilDistance (fun _ => PROS_ERR) 3 60 true 3000).1 ∧
    isDriveOrBrake (Action.tank 0 0) = true := by
  have h := C10_thm (fun _ => PROS_ERR) 3 60 true 3000 ⟨1, 2, 3⟩
  have hmem : Action.tank 0 0 ∈ (driveUntilDistance (fun _ => PROS_ERR) 3 60 true 3000).1 := by
    rw [driveUntilDistance]
    simp
  exact ⟨h.1, hmem, h.2 (Action.tank 0 0) hmem⟩

end MainDrive
